import Mathlib

/-!
# Verification of the sparse attention dispatch mechanism

Shallow embedding of the bucketed / sparse attention code in
`TensorFlow/nlp/transformer/layers/common_attention.py`: the LSH gating
class, the truncating dispatcher contract (dispatch / combine /
nonpadding / length_coordinate), the per-bucket attention bias and
softmax, the configuration validators, and the empty-input
short-circuits.  Machine floats are modelled by exact rationals; the
softmax is modelled over the reals.
-/

/- ### Dtypes and large_compatible_negative (common_attention.py lines 59-73) -/

inductive TFDType where
  | float16
  | bfloat16
  | float32
  | float64
deriving DecidableEq

/-- Minimum (most negative) finite value of the IEEE binary16 format,
the value of `tf.float16.min`. -/
def float16_min : ℚ := -65504

/-- Embedding of `large_compatible_negative` (lines 59-73): the standard
bias constant -1e9 cannot be represented in float16, so float16 gets
`tf.float16.min` instead. -/
def large_compatible_negative (tensor_type : TFDType) : ℚ :=
  if tensor_type = TFDType.float16 then float16_min else -(10 ^ 9)

/- ### Configuration validators (C5) -/

/-- True when an `Except` carries an error. -/
def isError {ε α : Type} (e : Except ε α) : Bool :=
  match e with
  | .error _ => true
  | .ok _ => false

/-- Embedding of the argument checks of `multihead_attention`
(lines 4617-4622): raise `ValueError` when the key depth or the value
depth is not divisible by the number of heads. -/
def multihead_attention_validate (total_key_depth total_value_depth num_heads : Nat) :
    Except String Unit :=
  if total_key_depth % num_heads ≠ 0 then
    .error "Key depth must be divisible by the number of attention heads."
  else if total_value_depth % num_heads ≠ 0 then
    .error "Value depth must be divisible by the number of attention heads."
  else
    .ok ()

/-- Embedding of the identical argument checks of
`grouped_attention_multihead` (lines 1392-1398). -/
def grouped_attention_multihead_validate
    (total_key_depth total_value_depth num_heads : Nat) : Except String Unit :=
  if total_key_depth % num_heads ≠ 0 then
    .error "Key depth must be divisible by the number of attention heads."
  else if total_value_depth % num_heads ≠ 0 then
    .error "Value depth must be divisible by the number of attention heads."
  else
    .ok ()

/-- Embedding of the check of `dot_product_attention_relative`
(lines 1793-1795): `if not max_relative_position: raise ValueError`.
Python falsiness of an optional integer: `None` or `0`. -/
def dot_product_attention_relative_validate (max_relative_position : Option Int) :
    Except String Unit :=
  match max_relative_position with
  | none => .error "Max relative position should be > 0 when using relative self attention."
  | some m =>
      if m = 0 then
        .error "Max relative position should be > 0 when using relative self attention."
      else
        .ok ()

/-- Embedding of the check of `multihead_self_attention_reduced`
(lines 6012-6013): `if not factor or not multihead_params: raise
ValueError`.  `factor` is an optional integer (falsy when `None` or 0);
`multihead_params` is an optional dict, modelled by its optional size
(falsy when `None` or empty). -/
def multihead_self_attention_reduced_validate
    (factor : Option Int) (multihead_params_size : Option Nat) : Except String Unit :=
  if factor = none ∨ factor = some 0 ∨
      multihead_params_size = none ∨ multihead_params_size = some 0 then
    .error "factor and multihead_params should be set"
  else
    .ok ()

/- ### Tensors and the empty-input short-circuits (C6) -/

/-- A dense tensor: a shape and row-major data. -/
structure Tensor where
  shape : List Nat
  data : List ℚ
deriving DecidableEq

/-- Embedding of `tf.zeros(shape)`. -/
def tf_zeros (shape : List Nat) : Tensor :=
  ⟨shape, List.replicate shape.prod 0⟩

/-- Embedding of `tf.squeeze(t, axis=0)` for a leading axis of size 1. -/
def tf_squeeze0 (t : Tensor) : Tensor :=
  ⟨t.shape.tail, t.data⟩

/-- Embedding of the `tf.cond` short-circuit of `self_attention_expert`
(lines 5350-5357): when the length is zero, forward an empty tensor of
shape `[0, depth]` instead of evaluating `length_not_null`.  The general
branch is an arbitrary function of the length and depth, since `tf.cond`
evaluates only the selected branch. -/
def self_attention_expert (length depth : Nat)
    (length_not_null : Nat → Nat → Tensor) : Tensor :=
  if length = 0 then
    tf_zeros [0, depth]
  else
    length_not_null length depth

/-- Embedding of the `tf.cond` short-circuit of `expert_dot_product`
(lines 5439-5466): when the query length or the key length is zero,
return zeros of shape `[1, 1, length_q, depth_v]` instead of evaluating
`dot_product_attention`; both singleton axes are then squeezed away. -/
def expert_dot_product (length_q length_k depth_v : Nat)
    (attention_result : Tensor) : Tensor :=
  let v_out :=
    if length_q = 0 ∨ length_k = 0 then
      tf_zeros [1, 1, length_q, depth_v]
    else
      attention_result
  tf_squeeze0 (tf_squeeze0 v_out)

/- ### LSH gating (common_attention.py lines 845-922) -/

/-- Embedding of `tf.sign` on a rational scalar. -/
def tf_sign (x : ℚ) : ℚ :=
  if x < 0 then -1 else if x = 0 then 0 else 1

/-- Embedding of `tf.argmax` over the first `n` values of `f`:
index of the largest value, smallest index on ties. -/
def argmax_idx (f : Nat → ℚ) (n : Nat) : Nat :=
  (List.range n).foldl (fun best i => if f best < f i then i else best) 0

/-- Embedding of the `LshGating` object (lines 845-922): the state left
by `__init__` after its `assert nb_replicat == 1` has passed, for a
single head.  `t_vectors` holds the hyperplane variable of shape
`[depth, nb_hyperplanes]`. -/
structure LshGating where
  depth : Nat
  nb_hyperplanes : Nat
  t_vectors : Nat → Nat → ℚ

/-- Bucket count of `LshGating.__init__` (line 864): `2**nb_hyperplanes`. -/
def LshGating.nb_buckets (g : LshGating) : Nat :=
  2 ^ g.nb_hyperplanes

/-- Embedding of `LshGating.__init__` (lines 848-884) as a checked
constructor: the Python body runs `assert self.nb_replicat == 1` and
otherwise records `nb_buckets = 2**nb_hyperplanes`. -/
def LshGating.init (depth nb_hyperplanes : Nat) (nb_replicat : Int) :
    Except String (Nat × Nat × Nat) :=
  if nb_replicat = 1 then
    .ok (depth, nb_hyperplanes, 2 ^ nb_hyperplanes)
  else
    .error "AssertionError: nb_replicat == 1"

/-- Embedding of `LshGating._idx_to_bits` (lines 886-889): bit `h` (most
significant first, `nb_hyperplanes` bits) of the bucket index `i`,
mapped to -1.0 / 1.0. -/
def LshGating.idx_to_bits (g : LshGating) (i h : Nat) : ℚ :=
  if Nat.testBit i (g.nb_hyperplanes - 1 - h) then 1 else -1

/-- Projection of a token vector `x` onto hyperplane `h`:
`tf.matmul(x, self.t_vectors)` of `get_gates` (line 906). -/
def LshGating.proj (g : LshGating) (x : Nat → ℚ) (h : Nat) : ℚ :=
  ∑ i in Finset.range g.depth, x i * g.t_vectors i h

/-- Similarity score of a token against bucket `b`:
`tf.matmul(tf.sign(x), self.t_group, transpose_b=True) / nb_hyperplanes`
of `get_gates` (lines 908-913). -/
def LshGating.score (g : LshGating) (x : Nat → ℚ) (b : Nat) : ℚ :=
  (∑ h in Finset.range g.nb_hyperplanes, tf_sign (g.proj x h) * g.idx_to_bits b h) /
    (g.nb_hyperplanes : ℚ)

/-- Bucket chosen for a token: the `tf.argmax` of `get_gates` (line 917). -/
def LshGating.bucket (g : LshGating) (x : Nat → ℚ) : Nat :=
  argmax_idx (g.score x) g.nb_buckets

/-- Embedding of `LshGating.get_gates` (lines 892-922) for one token
vector `x`: the one-hot row (`tf.one_hot`, line 920) over the
`2^nb_hyperplanes` buckets selecting the argmax-scored bucket. -/
def LshGating.get_gates (g : LshGating) (x : Nat → ℚ) (b : Nat) : ℚ :=
  if b = g.bucket x then 1 else 0

/- ### The truncating dispatcher, modelled from the spec -/

/-- Modelled from the spec: `expert_utils.TruncatingDispatcher` is used
by `grouped_attention_multihead` and `dot_product_batched_head` but its
definition is not under `src/`.  Spec section 4.2: for each bucket,
gather up to `capacity` assigned tokens in original order; fewer tokens
are zero-padded, extra tokens are dropped deterministically in original
index order (drop-last).  `gates t b` says whether token `t` requests
bucket `b`; `num_tokens` is the batch length. -/
structure TruncatingDispatcher where
  num_tokens : Nat
  num_buckets : Nat
  capacity : Nat
  gates : Nat → Nat → Bool

/-- Modelled from the spec: tokens assigned to bucket `b`, in original
sequence order. -/
def TruncatingDispatcher.assigned (d : TruncatingDispatcher) (b : Nat) : List Nat :=
  (List.range d.num_tokens).filter (fun t => d.gates t b)

/-- Modelled from the spec: tokens physically placed in bucket `b` —
the first `capacity` assigned tokens (drop-last truncation). -/
def TruncatingDispatcher.kept (d : TruncatingDispatcher) (b : Nat) : List Nat :=
  (d.assigned b).take d.capacity

/-- Modelled from the spec: original token index held by slot `s` of
bucket `b`, or `none` for a padding slot. -/
def TruncatingDispatcher.slot (d : TruncatingDispatcher) (b s : Nat) : Option Nat :=
  (d.kept b).get? s

/-- Modelled from the spec: `nonpadding()` — 1.0 on slots holding real
data, 0.0 on padding slots. -/
def TruncatingDispatcher.nonpadding (d : TruncatingDispatcher) (b s : Nat) : ℚ :=
  if s < (d.kept b).length then 1 else 0

/-- Modelled from the spec: `length_coordinate()` — original sequence
position of the token in slot `s` of bucket `b` (0 on padding slots,
whose coordinate is unused behind the padding mask). -/
def TruncatingDispatcher.length_coordinate (d : TruncatingDispatcher) (b s : Nat) : Nat :=
  ((d.kept b).get? s).getD 0

/-- Modelled from the spec: `dispatch` — per-bucket gather of the token
vectors `x` into a `[num_buckets, capacity, depth]` padded batch;
padding slots hold zero vectors. -/
def TruncatingDispatcher.dispatch (d : TruncatingDispatcher) (x : Nat → Nat → ℚ)
    (b s i : Nat) : ℚ :=
  match d.slot b s with
  | some t => x t i
  | none => 0

/-- Modelled from the spec: `dispatch` as a dense tensor of shape
`[num_buckets, capacity, depth]` (spec section 3, "Dispatched batch"). -/
def TruncatingDispatcher.dispatch_tensor (d : TruncatingDispatcher) (depth : Nat)
    (x : Nat → Nat → ℚ) : List (List (List ℚ)) :=
  (List.range d.num_buckets).map fun b =>
    (List.range d.capacity).map fun s =>
      (List.range depth).map fun i => d.dispatch x b s i

/-- Modelled from the spec: `combine` — scatter per-bucket outputs `y`
back to original token positions; with boolean (one-hot) gates each kept
slot contributes with weight 1, and tokens with no contributing bucket
receive a zero vector. -/
def TruncatingDispatcher.combine (d : TruncatingDispatcher) (y : Nat → Nat → Nat → ℚ)
    (t i : Nat) : ℚ :=
  ∑ b in Finset.range d.num_buckets, ∑ s in Finset.range d.capacity,
    if d.slot b s = some t then y b s i else 0

/- ### Capacity computations (C2) -/

/-- Embedding of `tf.to_int32` / `tf.cast(..., tf.int32)` on a rational:
truncation toward zero. -/
def to_int32 (x : ℚ) : Int :=
  if 0 ≤ x then ⌊x⌋ else ⌈x⌉

/-- Embedding of `tf.reduce_max` on a list of rationals (the empty case
never arises in the modelled call sites). -/
def reduce_max : List ℚ → ℚ
  | [] => 0
  | h :: t => t.foldl max h

/-- Embedding of the query capacity of `grouped_attention_multihead`
(lines 1450-1457): `min(length_q, to_int32(length_q / num_groups *
multiplicative_overhead + additive_overhead))`. -/
def grouped_capacity_q (length_q num_groups : Nat) (mult add : ℚ) : Int :=
  min (length_q : Int)
    (to_int32 ((length_q : ℚ) / (num_groups : ℚ) * mult + add))

/-- Embedding of the memory capacity of `grouped_attention_multihead`
(lines 1451-1461): `min(length_kv, to_int32(length_kv *
memory_target_density / num_groups * multiplicative_overhead +
additive_overhead))`. -/
def grouped_capacity_m (length_kv num_groups : Nat) (density mult add : ℚ) : Int :=
  min (length_kv : Int)
    (to_int32 ((length_kv : ℚ) * density / (num_groups : ℚ) * mult + add))

/-- Embedding of the capacity computed by `get_dispatcher` inside
`dot_product_batched_head` (lines 5681-5692): count the ones of the
gates per batch row, keep the max over the batch, divide by the bucket
count, double, and clip to the length.  `gates a t b` is the gate tensor
of shape `[batch*heads, length, nb_buckets]`. -/
def get_dispatcher_capacity (nbatch length nb_buckets : Nat)
    (gates : Nat → Nat → Nat → ℚ) : Nat :=
  let row_sums := (List.range nbatch).map fun a =>
    ∑ t in Finset.range length, ∑ b in Finset.range nb_buckets, gates a t b
  let nb_elems_to_dispatch := (to_int32 (reduce_max row_sums)).toNat
  min length (nb_elems_to_dispatch / nb_buckets * 2)

/-- Batched gate tensor produced by stacking `LshGating.get_gates` rows,
as consumed by `dot_product_batched_head`: `xv a t` is the token vector
at batch row `a`, position `t`. -/
def lsh_batched_gates (g : LshGating) (xv : Nat → Nat → Nat → ℚ)
    (a t b : Nat) : ℚ :=
  g.get_gates (xv a t) b

/-- Embedding of the `add_first` branch of `get_gates_head` in
`sparse_dot_product_attention_truncated` (lines 5817-5820):
`tf.maximum(gates, tf.reshape(tf.one_hot([0], length), [1, 1, length, 1]))`
— dispatch the first element to every bucket. -/
def add_first_gates (gates : Nat → Nat → Nat → ℚ) (a t b : Nat) : ℚ :=
  max (gates a t b) (if t = 0 then 1 else 0)

/- ### Threshold gating of grouped_attention_multihead (C8) -/

/-- Embedding of the memory-request gates of `grouped_attention_multihead`
(lines 1444-1447): `m_requests = to_float(tf.greater(m_pred_biased, 0.0))`
then `tf.maximum` with the one-hot of position 0 broadcast over groups —
token `t` joins group `i` when its biased predictor score exceeds zero,
and the first memory position joins every group. -/
def m_requests (m_pred_biased : Nat → Nat → ℚ) (t i : Nat) : Bool :=
  decide (0 < m_pred_biased t i) || decide (t = 0)

/- ### Per-bucket attention bias and softmax (C3, C4) -/

/-- Embedding of the bias of `grouped_attention_multihead`
(lines 1473-1479): `(m_dispatcher.nonpadding() - 1.0) * 1e9` per key
slot, plus, under `mask_right`, `-1e9` wherever the key's original
length coordinate exceeds the query's. -/
def grouped_attention_bias (qd md : TruncatingDispatcher) (mask_right : Bool)
    (b i j : Nat) : ℚ :=
  (md.nonpadding b j - 1) * 10 ^ 9 +
    (if mask_right ∧ qd.length_coordinate b i < md.length_coordinate b j then
      -(10 ^ 9)
    else 0)

/-- Embedding of the bias of `dot_product_batched_head`
(lines 5714-5722): identical formula with the key dispatcher in place of
the memory dispatcher. -/
def batched_head_bias (qd kd : TruncatingDispatcher) (mask_right : Bool)
    (b i j : Nat) : ℚ :=
  (kd.nonpadding b j - 1) * 10 ^ 9 +
    (if mask_right ∧ qd.length_coordinate b i < kd.length_coordinate b j then
      -(10 ^ 9)
    else 0)

/-- Raw (pre-bias) per-bucket attention score of `dot_product_attention`
(line 1654) on dispatched inputs: `tf.matmul(q, k, transpose_b=True)` at
bucket `b`, query slot `i`, key slot `j`. -/
def sparse_attention_score (qd kd : TruncatingDispatcher) (q k : Nat → Nat → ℚ)
    (depth b i j : Nat) : ℚ :=
  ∑ m in Finset.range depth, qd.dispatch q b i m * kd.dispatch k b j m

/-- Per-bucket logits of `dot_product_batched_head` (line 5727 via
`dot_product_attention`, lines 1654-1657): raw scores plus bias. -/
def batched_head_logits (qd kd : TruncatingDispatcher) (mask_right : Bool)
    (q k : Nat → Nat → ℚ) (depth b i j : Nat) : ℚ :=
  sparse_attention_score qd kd q k depth b i j +
    batched_head_bias qd kd mask_right b i j

/-- Per-bucket logits of `grouped_attention_multihead` (lines 1472-1480):
raw scores plus bias. -/
def grouped_attention_logits (qd md : TruncatingDispatcher) (mask_right : Bool)
    (q k : Nat → Nat → ℚ) (depth b i j : Nat) : ℚ :=
  sparse_attention_score qd md q k depth b i j +
    grouped_attention_bias qd md mask_right b i j

/-- Embedding of `tf.nn.softmax` over the first `n` logits, in exact
real arithmetic. -/
noncomputable def softmax_weight (n : Nat) (l : Nat → ℝ) (j : Nat) : ℝ :=
  Real.exp (l j) / ∑ m in Finset.range n, Real.exp (l m)

/-- Softmax attention weight given by `dot_product_batched_head` to key
slot `j` of bucket `b` for query slot `i` (softmax over the key capacity
axis, line 1660 via `dot_product_attention`). -/
noncomputable def batched_head_weight (qd kd : TruncatingDispatcher)
    (mask_right : Bool) (q k : Nat → Nat → ℚ) (depth b i j : Nat) : ℝ :=
  softmax_weight kd.capacity
    (fun m => ((batched_head_logits qd kd mask_right q k depth b i m : ℚ) : ℝ)) j

/-- Softmax attention weight given by `grouped_attention_multihead` to
memory slot `j` of group `b` for query slot `i` (lines 1481-1482:
`weights = tf.exp(tf.nn.log_softmax(logits))`, i.e. the softmax). -/
noncomputable def grouped_attention_weight (qd md : TruncatingDispatcher)
    (mask_right : Bool) (q k : Nat → Nat → ℚ) (depth b i j : Nat) : ℝ :=
  softmax_weight md.capacity
    (fun m => ((grouped_attention_logits qd md mask_right q k depth b i m : ℚ) : ℝ)) j

/- ### Helper lemmas -/

lemma argmax_idx_succ (f : Nat → ℚ) (n : Nat) :
    argmax_idx f (n + 1) =
      if f (argmax_idx f n) < f n then n else argmax_idx f n := by
  unfold argmax_idx
  rw [List.range_succ, List.foldl_append, List.foldl_cons, List.foldl_nil]

lemma argmax_idx_lt (f : Nat → ℚ) (n : Nat) (hn : 0 < n) :
    argmax_idx f n < n := by
  induction n with
  | zero => exact absurd hn (lt_irrefl 0)
  | succ m ih =>
      rw [argmax_idx_succ]
      rcases Nat.eq_zero_or_pos m with hm | hm
      · subst hm
        simp [argmax_idx]
      · split
        · exact Nat.lt_succ_self m
        · exact Nat.lt_succ_of_lt (ih hm)

lemma le_argmax_idx (f : Nat → ℚ) (n : Nat) (i : Nat) (hi : i < n) :
    f i ≤ f (argmax_idx f n) := by
  induction n with
  | zero => exact absurd hi (Nat.not_lt_zero i)
  | succ m ih =>
      rw [argmax_idx_succ]
      rcases Nat.lt_succ_iff_lt_or_eq.mp hi with him | him
      · split
        · next h => exact le_trans (ih him) (le_of_lt h)
        · exact ih him
      · subst him
        split
        · exact le_refl _
        · next h => exact not_lt.mp h

lemma LshGating.bucket_lt (g : LshGating) (x : Nat → ℚ) :
    g.bucket x < g.nb_buckets :=
  argmax_idx_lt _ _ (Nat.pos_pow_of_pos g.nb_hyperplanes (by decide))

lemma LshGating.get_gates_sum (g : LshGating) (x : Nat → ℚ) :
    ∑ b in Finset.range g.nb_buckets, g.get_gates x b = 1 := by
  unfold LshGating.get_gates
  rw [Finset.sum_ite_eq' (Finset.range g.nb_buckets) (g.bucket x) (fun _ => (1 : ℚ))]
  simp [Finset.mem_range.mpr (g.bucket_lt x)]

lemma LshGating.get_gates_nonneg (g : LshGating) (x : Nat → ℚ) (b : Nat) :
    0 ≤ g.get_gates x b := by
  unfold LshGating.get_gates
  split <;> norm_num

lemma LshGating.get_gates_le_one (g : LshGating) (x : Nat → ℚ) (b : Nat) :
    g.get_gates x b ≤ 1 := by
  unfold LshGating.get_gates
  split <;> norm_num

lemma TruncatingDispatcher.nonpadding_eq_one_iff (d : TruncatingDispatcher)
    (b s : Nat) : d.nonpadding b s = 1 ↔ s < (d.kept b).length := by
  unfold TruncatingDispatcher.nonpadding
  split <;> simp_all

lemma TruncatingDispatcher.nonpadding_eq_zero_iff (d : TruncatingDispatcher)
    (b s : Nat) : d.nonpadding b s = 0 ↔ d.slot b s = none := by
  unfold TruncatingDispatcher.nonpadding TruncatingDispatcher.slot
  rw [List.get?_eq_none]
  split <;> simp_all

lemma softmax_weight_pos (n : Nat) (l : Nat → ℝ) (j : Nat) (hn : 0 < n) :
    0 < softmax_weight n l j := by
  unfold softmax_weight
  refine div_pos (Real.exp_pos _) ?_
  refine Finset.sum_pos (fun m _ => Real.exp_pos _) ?_
  exact ⟨0, Finset.mem_range.mpr hn⟩

lemma softmax_weight_le_exp (n : Nat) (l : Nat → ℝ) (j j' : Nat)
    (hj' : j' < n) : softmax_weight n l j ≤ Real.exp (l j - l j') := by
  unfold softmax_weight
  rw [Real.exp_sub]
  apply div_le_div_of_nonneg_left (Real.exp_pos _).le (Real.exp_pos _)
  exact Finset.single_le_sum (f := fun m => Real.exp (l m))
    (fun m _ => (Real.exp_pos _).le) (Finset.mem_range.mpr hj')

lemma filter_range_beq (N b : Nat) :
    ((List.range N).filter fun t => t == b) = if b < N then [b] else [] := by
  induction N with
  | zero => simp
  | succ m ih =>
      rw [List.range_succ, List.filter_append, ih]
      by_cases h1 : b < m
      · have h2 : b < m + 1 := Nat.lt_succ_of_lt h1
        have h3 : ¬ (m == b) = true := by simp; omega
        simp [h1, h2, h3]
      · by_cases h2 : b = m
        · subst h2
          simp [h1]
        · have h3 : ¬ b < m + 1 := by omega
          have h4 : ¬ (m == b) = true := by simp; omega
          simp [h1, h3, h4]

/-- The identity gating of C1: every token requests exactly its own
bucket (`num_buckets = num_tokens`). -/
def identity_dispatcher (N C : Nat) : TruncatingDispatcher :=
  ⟨N, N, C, fun t b => t == b⟩

lemma identity_dispatcher_kept (N C : Nat) (hC : 1 ≤ C) (b : Nat) :
    (identity_dispatcher N C).kept b = if b < N then [b] else [] := by
  unfold TruncatingDispatcher.kept TruncatingDispatcher.assigned identity_dispatcher
  rw [filter_range_beq]
  split
  · exact List.take_of_length_le (by simpa using hC)
  · simp

lemma identity_dispatcher_slot (N C : Nat) (hC : 1 ≤ C) (b s : Nat) :
    (identity_dispatcher N C).slot b s =
      if b < N ∧ s = 0 then some b else none := by
  unfold TruncatingDispatcher.slot
  rw [identity_dispatcher_kept N C hC]
  by_cases hb : b < N
  · cases s with
    | zero => simp [hb]
    | succ m => simp [hb]
  · simp [hb]

lemma foldl_max_const (l : List ℚ) (c : ℚ) (h : ∀ x ∈ l, x = c) :
    l.foldl max c = c := by
  induction l with
  | nil => rfl
  | cons a t ih =>
      rw [List.foldl_cons, h a (List.mem_cons_self a t), max_self]
      exact ih fun x hx => h x (List.mem_cons_of_mem a hx)

lemma reduce_max_all_eq (l : List ℚ) (c : ℚ) (hne : l ≠ [])
    (h : ∀ x ∈ l, x = c) : reduce_max l = c := by
  cases l with
  | nil => exact absurd rfl hne
  | cons a t =>
      unfold reduce_max
      rw [h a (List.mem_cons_self a t)]
      exact foldl_max_const t c fun x hx => h x (List.mem_cons_of_mem a hx)

lemma to_int32_natCast (n : Nat) : to_int32 ((n : ℚ)) = n := by
  unfold to_int32
  rw [if_pos (by positivity)]
  exact_mod_cast Int.floor_natCast n

lemma lsh_row_sum (g : LshGating) (xv : Nat → Nat → Nat → ℚ) (a L : Nat) :
    ∑ t in Finset.range L, ∑ b in Finset.range g.nb_buckets,
      lsh_batched_gates g xv a t b = (L : ℚ) := by
  have h : ∀ t, ∑ b in Finset.range g.nb_buckets,
      lsh_batched_gates g xv a t b = 1 := fun t => g.get_gates_sum (xv a t)
  rw [Finset.sum_congr rfl fun t _ => h t]
  simp

lemma add_first_row_sum (g : LshGating) (xv : Nat → Nat → Nat → ℚ)
    (a L : Nat) (hL : 1 ≤ L) :
    ∑ t in Finset.range L, ∑ b in Finset.range g.nb_buckets,
      add_first_gates (lsh_batched_gates g xv) a t b =
        ((L - 1 + g.nb_buckets : Nat) : ℚ) := by
  have hinner : ∀ t, (∑ b in Finset.range g.nb_buckets,
      add_first_gates (lsh_batched_gates g xv) a t b) =
        if t = 0 then (g.nb_buckets : ℚ) else 1 := by
    intro t
    by_cases ht : t = 0
    · subst ht
      have hmax : ∀ b, add_first_gates (lsh_batched_gates g xv) a 0 b = 1 := by
        intro b
        unfold add_first_gates
        rw [if_pos rfl]
        exact max_eq_right (g.get_gates_le_one (xv a 0) b)
      rw [Finset.sum_congr rfl fun b _ => hmax b]
      simp
    · have hmax : ∀ b, add_first_gates (lsh_batched_gates g xv) a t b =
          lsh_batched_gates g xv a t b := by
        intro b
        unfold add_first_gates
        rw [if_neg ht]
        exact max_eq_left (g.get_gates_nonneg (xv a t) b)
      rw [Finset.sum_congr rfl fun b _ => hmax b, if_neg ht]
      exact g.get_gates_sum (xv a t)
  rw [Finset.sum_congr rfl fun t _ => hinner t]
  have hsplit : ∀ t : Nat, (if t = 0 then (g.nb_buckets : ℚ) else 1) =
      1 + (if t = 0 then (g.nb_buckets : ℚ) - 1 else 0) := by
    intro t
    split <;> ring
  rw [Finset.sum_congr rfl fun t _ => hsplit t, Finset.sum_add_distrib,
    Finset.sum_ite_eq' (Finset.range L) 0 (fun _ => (g.nb_buckets : ℚ) - 1)]
  rw [if_pos (Finset.mem_range.mpr hL)]
  have hcast : ((L - 1 + g.nb_buckets : Nat) : ℚ) =
      (L : ℚ) - 1 + (g.nb_buckets : ℚ) := by
    push_cast [Nat.cast_sub hL]
    ring
  rw [hcast]
  simp
  ring

/- ### Claim theorems -/

/-- C9: `large_compatible_negative` returns a type-appropriate
large-negative attention-bias sentinel: `tf.float16.min` (-65504, the
most negative value representable in binary16) for float16 tensors, and
-1e9 for every other tensor type. -/
theorem large_compatible_negative_type_appropriate :
    large_compatible_negative TFDType.float16 = float16_min ∧
    float16_min = -65504 ∧
    (∀ t : TFDType, t ≠ TFDType.float16 →
      large_compatible_negative t = -(10 ^ 9)) := by
  refine ⟨rfl, rfl, ?_⟩
  intro t ht
  unfold large_compatible_negative
  rw [if_neg ht]

/-- Witness for C9 at the concrete dtype float32. -/
theorem large_compatible_negative_type_appropriate_witness :
    large_compatible_negative TFDType.float32 = -(10 ^ 9) :=
  large_compatible_negative_type_appropriate.2.2 TFDType.float32 (by decide)

/-- C10: constructing `LshGating` with `nb_replicat` different from 1
always fails the constructor assertion, and with `nb_replicat = 1` the
assertion always passes, so the replication parameter advertised in the
constructor signature is unsupported at the public interface. -/
theorem lsh_gating_replicat_unsupported :
    (∀ (d h : Nat) (r : Int), r ≠ 1 →
      isError (LshGating.init d h r) = true) ∧
    (∀ d h : Nat, isError (LshGating.init d h 1) = false) := by
  constructor
  · intro d h r hr
    unfold LshGating.init isError
    rw [if_neg hr]
  · intro d h
    unfold LshGating.init isError
    rw [if_pos rfl]

/-- Witness for C10 at the concrete replication factor 2. -/
theorem lsh_gating_replicat_unsupported_witness :
    isError (LshGating.init 4 3 2) = true :=
  lsh_gating_replicat_unsupported.1 4 3 2 (by decide)

/-- C5: each configuration error fails fast with a `ValueError` and is
never silently coerced: `multihead_attention` and
`grouped_attention_multihead` reject key or value depths not divisible
by the head count (and accept divisible ones),
`dot_product_attention_relative` rejects an unset or zero
`max_relative_position` (and accepts a nonzero one), and
`multihead_self_attention_reduced` rejects an unset `factor` or
`multihead_params`. -/
theorem config_errors_fail_fast :
    (∀ tkd tvd nh : Nat, ¬ nh ∣ tkd ∨ ¬ nh ∣ tvd →
      isError (multihead_attention_validate tkd tvd nh) = true) ∧
    (∀ tkd tvd nh : Nat, nh ∣ tkd → nh ∣ tvd →
      isError (multihead_attention_validate tkd tvd nh) = false) ∧
    (∀ tkd tvd nh : Nat, ¬ nh ∣ tkd ∨ ¬ nh ∣ tvd →
      isError (grouped_attention_multihead_validate tkd tvd nh) = true) ∧
    (∀ tkd tvd nh : Nat, nh ∣ tkd → nh ∣ tvd →
      isError (grouped_attention_multihead_validate tkd tvd nh) = false) ∧
    (∀ m : Option Int, m = none ∨ m = some 0 →
      isError (dot_product_attention_relative_validate m) = true) ∧
    (∀ m : Int, m ≠ 0 →
      isError (dot_product_attention_relative_validate (some m)) = false) ∧
    (∀ (f : Option Int) (p : Option Nat), f = none ∨ p = none →
      isError (multihead_self_attention_reduced_validate f p) = true) := by
  have hdvd : ∀ tkd tvd nh : Nat, ¬ nh ∣ tkd ∨ ¬ nh ∣ tvd →
      isError (multihead_attention_validate tkd tvd nh) = true := by
    intro tkd tvd nh h
    unfold multihead_attention_validate isError
    rcases h with h | h
    · have : tkd % nh ≠ 0 := fun hh => h (Nat.dvd_of_mod_eq_zero hh)
      simp [this]
    · have h2 : tvd % nh ≠ 0 := fun hh => h (Nat.dvd_of_mod_eq_zero hh)
      by_cases h1 : tkd % nh = 0 <;> simp [h1, h2]
  have hok : ∀ tkd tvd nh : Nat, nh ∣ tkd → nh ∣ tvd →
      isError (multihead_attention_validate tkd tvd nh) = false := by
    intro tkd tvd nh h1 h2
    unfold multihead_attention_validate isError
    simp [Nat.eq_zero_of_dvd_of_lt, Nat.mod_eq_zero_of_dvd h1,
      Nat.mod_eq_zero_of_dvd h2]
  refine ⟨hdvd, hok, hdvd, hok, ?_, ?_, ?_⟩
  · intro m h
    rcases h with h | h <;> subst h <;> rfl
  · intro m hm
    unfold dot_product_attention_relative_validate isError
    simp [hm]
  · intro f p h
    unfold multihead_self_attention_reduced_validate isError
    rcases h with h | h <;> subst h <;> simp

/-- Witness for C5: concrete rejected configurations (key depth 7 not
divisible by 2 heads; missing `max_relative_position`; missing
`factor`). -/
theorem config_errors_fail_fast_witness :
    isError (multihead_attention_validate 7 8 2) = true ∧
    isError (dot_product_attention_relative_validate none) = true ∧
    isError (multihead_self_attention_reduced_validate none (some 3)) = true :=
  ⟨config_errors_fail_fast.1 7 8 2 (Or.inl (by decide)),
   config_errors_fail_fast.2.2.2.2.1 none (Or.inl rfl),
   config_errors_fail_fast.2.2.2.2.2.2 none (some 3) (Or.inl rfl)⟩

/-- C6: the expert attention path short-circuits on empty input:
`self_attention_expert` returns a zeros tensor of shape `[0, depth]`
when its batch is empty, whatever the general branch would compute, and
`expert_dot_product` returns a zeros tensor of shape
`[length_q, depth_v]` whenever its query length or key length is zero,
whatever the attention branch would compute. -/
theorem empty_input_short_circuits :
    (∀ (depth : Nat) (length_not_null : Nat → Nat → Tensor),
      self_attention_expert 0 depth length_not_null = tf_zeros [0, depth]) ∧
    (∀ (length_q length_k depth_v : Nat) (attention_result : Tensor),
      length_q = 0 ∨ length_k = 0 →
      expert_dot_product length_q length_k depth_v attention_result =
        tf_zeros [length_q, depth_v]) := by
  constructor
  · intro depth g
    unfold self_attention_expert
    rw [if_pos rfl]
  · intro lq lk dv attn h
    unfold expert_dot_product tf_squeeze0 tf_zeros
    rw [if_pos h]
    simp [Nat.mul_comm, Nat.mul_assoc]

/-- Witness for C6: an empty expert batch of depth 5, and an
`expert_dot_product` call with zero keys. -/
theorem empty_input_short_circuits_witness :
    self_attention_expert 0 5 (fun _ _ => ⟨[9], [3]⟩) = tf_zeros [0, 5] ∧
    expert_dot_product 4 0 5 ⟨[9], [3]⟩ = tf_zeros [4, 5] :=
  ⟨empty_input_short_circuits.1 5 (fun _ _ => ⟨[9], [3]⟩),
   empty_input_short_circuits.2 4 0 5 ⟨[9], [3]⟩ (Or.inr rfl)⟩

/-- C7: for every token vector, `LshGating.get_gates` projects it on
the hyperplanes, signs the projections, scores all `2^nb_hyperplanes`
buckets through the fixed ±1 lookup, and one-hot-encodes the argmax: the
chosen bucket is in range and maximizes the score, and the returned row
assigns the token to exactly one bucket (its gates sum to one and equal
one exactly at the chosen bucket). -/
theorem lsh_get_gates_one_hot (g : LshGating) (x : Nat → ℚ) :
    g.bucket x < g.nb_buckets ∧
    (∀ b, g.get_gates x b = 1 ↔ b = g.bucket x) ∧
    (∀ b, b < g.nb_buckets → g.score x b ≤ g.score x (g.bucket x)) ∧
    ∑ b in Finset.range g.nb_buckets, g.get_gates x b = 1 := by
  refine ⟨g.bucket_lt x, ?_, ?_, g.get_gates_sum x⟩
  · intro b
    unfold LshGating.get_gates
    split
    · simp_all
    · simp_all
  · intro b hb
    exact le_argmax_idx (g.score x) g.nb_buckets b hb

/-- Witness for C7: a concrete one-hyperplane gating on a depth-2 token. -/
theorem lsh_get_gates_one_hot_witness :
    (LshGating.mk 2 1 fun _ _ => 1).score (fun _ => 1) 0 ≤
      (LshGating.mk 2 1 fun _ _ => 1).score (fun _ => 1)
        ((LshGating.mk 2 1 fun _ _ => 1).bucket (fun _ => 1)) :=
  (lsh_get_gates_one_hot (LshGating.mk 2 1 fun _ _ => 1) (fun _ => 1)).2.2.1
    0 (by decide)

lemma TruncatingDispatcher.nonpadding_first_slot (d : TruncatingDispatcher)
    (b : Nat) (hg : d.gates 0 b = true) (hL : 1 ≤ d.num_tokens)
    (hC : 1 ≤ d.capacity) : d.nonpadding b 0 = 1 := by
  have hmem : 0 ∈ d.assigned b := by
    unfold TruncatingDispatcher.assigned
    exact List.mem_filter.mpr ⟨List.mem_range.mpr hL, hg⟩
  have hlen : 0 < (d.assigned b).length :=
    List.length_pos.mpr (List.ne_nil_of_mem hmem)
  have hkl : 0 < (d.kept b).length := by
    unfold TruncatingDispatcher.kept
    rw [List.length_take]
    exact lt_min hC hlen
  simp [TruncatingDispatcher.nonpadding, hkl]

/-- C8: in the threshold-gating path of `grouped_attention_multihead`, a
memory token other than the first joins group `i` exactly when its
biased predictor score for group `i` exceeds 0; the first memory
position is forced into every group (and likewise the `add_first` gates
of `sparse_dot_product_attention_truncated` give the first element
weight at least 1 in every bucket); hence, for any nonempty memory and
positive capacity, every group's dispatched key batch starts with a real
(nonpadding) slot, so the per-bucket softmax is never taken over an
empty key axis. -/
theorem threshold_gating_no_empty_group :
    (∀ (m_pred_biased : Nat → Nat → ℚ) (t i : Nat), t ≠ 0 →
      (m_requests m_pred_biased t i = true ↔ 0 < m_pred_biased t i)) ∧
    (∀ (m_pred_biased : Nat → Nat → ℚ) (i : Nat),
      m_requests m_pred_biased 0 i = true) ∧
    (∀ (m_pred_biased : Nat → Nat → ℚ) (L G C b : Nat), 1 ≤ L → 1 ≤ C →
      (TruncatingDispatcher.mk L G C (m_requests m_pred_biased)).nonpadding b 0
        = 1) ∧
    (∀ (gates : Nat → Nat → Nat → ℚ) (a b : Nat),
      1 ≤ add_first_gates gates a 0 b) := by
  refine ⟨?_, ?_, ?_, ?_⟩
  · intro pred t i ht
    simp [m_requests, ht]
  · intro pred i
    simp [m_requests]
  · intro pred L G C b hL hC
    exact TruncatingDispatcher.nonpadding_first_slot _ b (by simp [m_requests]) hL hC
  · intro gates a b
    unfold add_first_gates
    rw [if_pos rfl]
    exact le_max_right _ _
/-- Witness for C8: three memory tokens whose predictor scores are all
negative still fill slot 0 of both groups. -/
theorem threshold_gating_no_empty_group_witness :
    (TruncatingDispatcher.mk 3 2 1 (m_requests fun _ _ => -1)).nonpadding 1 0
      = 1 :=
  threshold_gating_no_empty_group.2.2.1 (fun _ _ => -1) 3 2 1 1
    (by decide) (by decide)

/-- C1: with an identity gating (every token assigned to its own bucket)
and capacity at least 1, `dispatch` followed by `combine` reproduces the
original batch exactly — and since each bucket then holds exactly one
token, no token is truncated. -/
theorem identity_dispatch_combine_roundtrip (N C : Nat) (x : Nat → Nat → ℚ)
    (t i : Nat) (hC : 1 ≤ C) (ht : t < N) :
    (identity_dispatcher N C).combine
      ((identity_dispatcher N C).dispatch x) t i = x t i := by
  have hslot := identity_dispatcher_slot N C hC
  have h0 : (identity_dispatcher N C).slot t 0 = some t := by
    rw [hslot t 0]
    simp [ht]
  unfold TruncatingDispatcher.combine
  have houter : ∀ b ∈ Finset.range (identity_dispatcher N C).num_buckets,
      b ≠ t →
      (∑ s in Finset.range (identity_dispatcher N C).capacity,
        if (identity_dispatcher N C).slot b s = some t
        then (identity_dispatcher N C).dispatch x b s i else 0) = 0 := by
    intro b _ hbt
    apply Finset.sum_eq_zero
    intro s _
    rw [hslot b s]
    split
    · rw [if_neg]
      simp [hbt]
    · simp
  have hmem_t : t ∈ Finset.range (identity_dispatcher N C).num_buckets :=
    Finset.mem_range.mpr ht
  rw [Finset.sum_eq_single_of_mem t hmem_t houter]
  have hinner : ∀ s ∈ Finset.range (identity_dispatcher N C).capacity,
      s ≠ 0 →
      (if (identity_dispatcher N C).slot t s = some t
        then (identity_dispatcher N C).dispatch x t s i else 0) = 0 := by
    intro s _ hs
    rw [hslot t s]
    simp [hs]
  have hmem_0 : 0 ∈ Finset.range (identity_dispatcher N C).capacity :=
    Finset.mem_range.mpr hC
  rw [Finset.sum_eq_single_of_mem 0 hmem_0 hinner, if_pos h0]
  simp [TruncatingDispatcher.dispatch, h0]

/-- Witness for C1: three tokens, capacity 2; token 1 of a concrete
batch survives the round trip unchanged. -/
theorem identity_dispatch_combine_roundtrip_witness :
    1 ≤ 2 ∧ 1 < 3 ∧
    (identity_dispatcher 3 2).combine
      ((identity_dispatcher 3 2).dispatch fun t i => (t : ℚ) * 10 + i) 1 0 =
      (fun t i => (t : ℚ) * 10 + i : Nat → Nat → ℚ) 1 0 :=
  ⟨by decide, by decide,
   identity_dispatch_combine_roundtrip 3 2 (fun t i => (t : ℚ) * 10 + i) 1 0
     (by decide) (by decide)⟩

/-- C2: the per-bucket tensor produced by `dispatch` always has shape
exactly `[num_buckets, capacity, depth]` whatever the input content, and
the capacity computed by `get_dispatcher` in `dot_product_batched_head`
is content-independent for LSH gates: because every gate row is one-hot,
it equals `min(length, length // nb_buckets * 2)` for the query gates
and `min(length, (length - 1 + nb_buckets) // nb_buckets * 2)` for the
`add_first` key gates, whatever the token vectors are.  (The capacities
of `grouped_attention_multihead`, `grouped_capacity_q` and
`grouped_capacity_m`, take only lengths and hyperparameters as
arguments.) -/
theorem dispatch_shape_content_independent :
    (∀ (d : TruncatingDispatcher) (depth : Nat) (x : Nat → Nat → ℚ),
      (d.dispatch_tensor depth x).length = d.num_buckets ∧
      ∀ p ∈ d.dispatch_tensor depth x, p.length = d.capacity ∧
        ∀ r ∈ p, r.length = depth) ∧
    (∀ (g : LshGating) (nbatch L : Nat) (xv : Nat → Nat → Nat → ℚ),
      1 ≤ nbatch →
      get_dispatcher_capacity nbatch L g.nb_buckets (lsh_batched_gates g xv) =
        min L (L / g.nb_buckets * 2)) ∧
    (∀ (g : LshGating) (nbatch L : Nat) (xv : Nat → Nat → Nat → ℚ),
      1 ≤ nbatch → 1 ≤ L →
      get_dispatcher_capacity nbatch L g.nb_buckets
        (add_first_gates (lsh_batched_gates g xv)) =
        min L ((L - 1 + g.nb_buckets) / g.nb_buckets * 2)) := by
  refine ⟨?_, ?_, ?_⟩
  · intro d depth x
    constructor
    · simp [TruncatingDispatcher.dispatch_tensor]
    · intro p hp
      rcases List.mem_map.mp hp with ⟨b, _, rfl⟩
      constructor
      · simp
      · intro r hr
        rcases List.mem_map.mp hr with ⟨s, _, rfl⟩
        simp
  · intro g nbatch L xv h
    have hmax : reduce_max ((List.range nbatch).map fun a =>
        ∑ t in Finset.range L, ∑ b in Finset.range g.nb_buckets,
          lsh_batched_gates g xv a t b) = (L : ℚ) := by
      refine reduce_max_all_eq _ _ ?_ ?_
      · simp
        omega
      · intro y hy
        rcases List.mem_map.mp hy with ⟨a, _, rfl⟩
        exact lsh_row_sum g xv a L
    simp only [get_dispatcher_capacity]
    rw [hmax, to_int32_natCast]
    simp
  · intro g nbatch L xv h hL
    have hmax : reduce_max ((List.range nbatch).map fun a =>
        ∑ t in Finset.range L, ∑ b in Finset.range g.nb_buckets,
          add_first_gates (lsh_batched_gates g xv) a t b) =
        ((L - 1 + g.nb_buckets : Nat) : ℚ) := by
      refine reduce_max_all_eq _ _ ?_ ?_
      · simp
        omega
      · intro y hy
        rcases List.mem_map.mp hy with ⟨a, _, rfl⟩
        exact add_first_row_sum g xv a L hL
    simp only [get_dispatcher_capacity]
    rw [hmax, to_int32_natCast, Int.toNat_natCast]

/-- Witness for C2: one batch row of four tokens through a
one-hyperplane (two-bucket) gating gives capacity
`min 4 (4 // 2 * 2) = 4` regardless of the token values. -/
theorem dispatch_shape_content_independent_witness :
    get_dispatcher_capacity 1 4 (LshGating.mk 1 1 fun _ _ => 1).nb_buckets
      (lsh_batched_gates (LshGating.mk 1 1 fun _ _ => 1) fun _ _ _ => 1) =
      min 4 (4 / (LshGating.mk 1 1 fun _ _ => 1).nb_buckets * 2) :=
  dispatch_shape_content_independent.2.1 (LshGating.mk 1 1 fun _ _ => 1)
    1 4 (fun _ _ _ => 1) (by decide)

lemma TruncatingDispatcher.length_coordinate_of_padding
    (d : TruncatingDispatcher) (b s : Nat) (h : d.nonpadding b s = 0) :
    d.length_coordinate b s = 0 := by
  have hn := (d.nonpadding_eq_zero_iff b s).mp h
  unfold TruncatingDispatcher.slot at hn
  unfold TruncatingDispatcher.length_coordinate
  rw [hn]
  rfl

lemma grouped_attention_bias_padding (qd md : TruncatingDispatcher)
    (mask_right : Bool) (b i j : Nat) (h : md.nonpadding b j = 0) :
    grouped_attention_bias qd md mask_right b i j = -(10 ^ 9) := by
  unfold grouped_attention_bias
  rw [h, md.length_coordinate_of_padding b j h, if_neg]
  · ring
  · intro hc
    exact Nat.not_lt_zero _ hc.2

lemma grouped_attention_bias_real_past (qd md : TruncatingDispatcher)
    (mask_right : Bool) (b i j : Nat) (h1 : md.nonpadding b j = 1)
    (h2 : md.length_coordinate b j ≤ qd.length_coordinate b i) :
    grouped_attention_bias qd md mask_right b i j = 0 := by
  unfold grouped_attention_bias
  rw [h1, if_neg]
  · ring
  · intro hc
    exact absurd hc.2 (not_lt.mpr h2)

lemma grouped_attention_bias_future (qd md : TruncatingDispatcher)
    (b i j : Nat) (h1 : md.nonpadding b j = 1)
    (h2 : qd.length_coordinate b i < md.length_coordinate b j) :
    grouped_attention_bias qd md true b i j = -(10 ^ 9) := by
  unfold grouped_attention_bias
  rw [h1, if_pos ⟨rfl, h2⟩]
  ring

lemma batched_head_bias_eq_grouped : batched_head_bias = grouped_attention_bias :=
  rfl

lemma TruncatingDispatcher.dispatch_of_padding (d : TruncatingDispatcher)
    (v : Nat → Nat → ℚ) (b s : Nat) (h : d.nonpadding b s = 0) :
    ∀ m, d.dispatch v b s m = 0 := by
  intro m
  have hn := (d.nonpadding_eq_zero_iff b s).mp h
  unfold TruncatingDispatcher.dispatch
  rw [hn]

/-- C3 (amended): in the causal variants (`mask_right=True`) of
`grouped_attention_multihead` and `dot_product_batched_head`, a real key
slot whose original sequence position is strictly greater than the
query's receives an additive bias of exactly -1e9 on its logit, so its
softmax weight is at most `exp(raw score gap - 1e9)` relative to any
real non-future key slot — exponentially suppressed and positive, not
exactly zero (the code applies a finite -1e9 bias, not a hard mask). -/
theorem causal_mask_bias_bound (qd md : TruncatingDispatcher)
    (q k : Nat → Nat → ℚ) (depth b i j j' : Nat)
    (hj' : j' < md.capacity)
    (hreal : md.nonpadding b j = 1)
    (hfut : qd.length_coordinate b i < md.length_coordinate b j)
    (hj'real : md.nonpadding b j' = 1)
    (hj'past : md.length_coordinate b j' ≤ qd.length_coordinate b i) :
    grouped_attention_bias qd md true b i j = -(10 ^ 9) ∧
    grouped_attention_weight qd md true q k depth b i j ≤
      Real.exp (((sparse_attention_score qd md q k depth b i j -
        sparse_attention_score qd md q k depth b i j' : ℚ) : ℝ) - 10 ^ 9) ∧
    batched_head_weight qd md true q k depth b i j ≤
      Real.exp (((sparse_attention_score qd md q k depth b i j -
        sparse_attention_score qd md q k depth b i j' : ℚ) : ℝ) - 10 ^ 9) := by
  have hbj := grouped_attention_bias_future qd md b i j hreal hfut
  have hbj' := grouped_attention_bias_real_past qd md true b i j' hj'real hj'past
  have hexp : ((grouped_attention_logits qd md true q k depth b i j : ℚ) : ℝ) -
      ((grouped_attention_logits qd md true q k depth b i j' : ℚ) : ℝ) =
      ((sparse_attention_score qd md q k depth b i j -
        sparse_attention_score qd md q k depth b i j' : ℚ) : ℝ) - 10 ^ 9 := by
    unfold grouped_attention_logits
    rw [hbj, hbj']
    push_cast
    ring
  have hw : grouped_attention_weight qd md true q k depth b i j ≤
      Real.exp (((sparse_attention_score qd md q k depth b i j -
        sparse_attention_score qd md q k depth b i j' : ℚ) : ℝ) - 10 ^ 9) := by
    have h := softmax_weight_le_exp md.capacity
      (fun m => ((grouped_attention_logits qd md true q k depth b i m : ℚ) : ℝ))
      j j' hj'
    rw [hexp] at h
    exact h
  have hb : batched_head_weight qd md true q k depth b i j =
      grouped_attention_weight qd md true q k depth b i j := rfl
  exact ⟨hbj, hw, hb ▸ hw⟩

/-- The all-pairs gating on a two-token sequence used to refute the
exact-zero reading of C3: one bucket of capacity 2 holding both tokens. -/
def c3_dispatcher : TruncatingDispatcher :=
  ⟨2, 1, 2, fun _ _ => true⟩

/-- Counterexample to C3 as stated: with `mask_right=True`, key slot 1
(original position 1) is strictly in the future of query slot 0
(original position 0), yet its softmax attention weight in the
per-bucket kernel is strictly positive — the -1e9 bias suppresses but
does not zero it. -/
theorem causal_mask_weight_counterexample :
    c3_dispatcher.nonpadding 0 1 = 1 ∧
    c3_dispatcher.length_coordinate 0 0 < c3_dispatcher.length_coordinate 0 1 ∧
    0 < grouped_attention_weight c3_dispatcher c3_dispatcher true
      (fun _ _ => 0) (fun _ _ => 0) 1 0 0 1 := by
  refine ⟨by decide, by decide, ?_⟩
  unfold grouped_attention_weight
  exact softmax_weight_pos _ _ _ (by decide)

/-- Witness for the amended C3 at the concrete two-token dispatcher. -/
theorem causal_mask_bias_bound_witness :
    c3_dispatcher.nonpadding 0 1 = 1 ∧
    c3_dispatcher.nonpadding 0 0 = 1 ∧
    grouped_attention_bias c3_dispatcher c3_dispatcher true 0 0 1 = -(10 ^ 9) :=
  ⟨by decide, by decide,
   (causal_mask_bias_bound c3_dispatcher c3_dispatcher
      (fun _ _ => 0) (fun _ _ => 0) 1 0 0 1 0
      (by decide) (by decide) (by decide) (by decide) (by decide)).1⟩

/-- C4 (amended): a dispatched padding slot receives an additive bias of
exactly -1e9 on its per-bucket attention logit, so its softmax weight is
at most `exp(raw score gap - 1e9)` relative to any real non-future key
slot — positive, not exactly zero.  Its direct contribution to the
attention output is nevertheless exactly zero, because `dispatch` fills
padding slots of the value tensor with zero vectors. -/
theorem padding_weight_bound (qd kd : TruncatingDispatcher)
    (mask_right : Bool) (q k v : Nat → Nat → ℚ) (depth b i j j' : Nat)
    (hj' : j' < kd.capacity)
    (hpad : kd.nonpadding b j = 0)
    (hj'real : kd.nonpadding b j' = 1)
    (hj'past : kd.length_coordinate b j' ≤ qd.length_coordinate b i) :
    batched_head_bias qd kd mask_right b i j = -(10 ^ 9) ∧
    batched_head_weight qd kd mask_right q k depth b i j ≤
      Real.exp (((sparse_attention_score qd kd q k depth b i j -
        sparse_attention_score qd kd q k depth b i j' : ℚ) : ℝ) - 10 ^ 9) ∧
    (∀ m, kd.dispatch v b j m = 0) ∧
    (∀ m, batched_head_weight qd kd mask_right q k depth b i j *
      ((kd.dispatch v b j m : ℚ) : ℝ) = 0) ∧
    grouped_attention_weight qd kd mask_right q k depth b i j ≤
      Real.exp (((sparse_attention_score qd kd q k depth b i j -
        sparse_attention_score qd kd q k depth b i j' : ℚ) : ℝ) - 10 ^ 9) := by
  have hbj : batched_head_bias qd kd mask_right b i j = -(10 ^ 9) := by
    rw [batched_head_bias_eq_grouped]
    exact grouped_attention_bias_padding qd kd mask_right b i j hpad
  have hbj' : batched_head_bias qd kd mask_right b i j' = 0 := by
    rw [batched_head_bias_eq_grouped]
    exact grouped_attention_bias_real_past qd kd mask_right b i j' hj'real hj'past
  have hexp : ((batched_head_logits qd kd mask_right q k depth b i j : ℚ) : ℝ) -
      ((batched_head_logits qd kd mask_right q k depth b i j' : ℚ) : ℝ) =
      ((sparse_attention_score qd kd q k depth b i j -
        sparse_attention_score qd kd q k depth b i j' : ℚ) : ℝ) - 10 ^ 9 := by
    unfold batched_head_logits
    rw [hbj, hbj']
    push_cast
    ring
  have hw : batched_head_weight qd kd mask_right q k depth b i j ≤
      Real.exp (((sparse_attention_score qd kd q k depth b i j -
        sparse_attention_score qd kd q k depth b i j' : ℚ) : ℝ) - 10 ^ 9) := by
    have h := softmax_weight_le_exp kd.capacity
      (fun m => ((batched_head_logits qd kd mask_right q k depth b i m : ℚ) : ℝ))
      j j' hj'
    rw [hexp] at h
    exact h
  have hdz := kd.dispatch_of_padding v b j hpad
  have hg : grouped_attention_weight qd kd mask_right q k depth b i j =
      batched_head_weight qd kd mask_right q k depth b i j := rfl
  refine ⟨hbj, hw, hdz, ?_, hg ▸ hw⟩
  intro m
  rw [hdz m]
  simp

/-- The single-token gating used to refute the exact-zero reading of
C4: one bucket of capacity 2 holding one real token, so slot 1 is
padding. -/
def c4_dispatcher : TruncatingDispatcher :=
  ⟨1, 1, 2, fun _ _ => true⟩

/-- Counterexample to C4 as stated: slot 1 of the dispatched bucket is
padding (`nonpadding = 0`), yet its softmax weight in the per-bucket
attention kernel is strictly positive — the -1e9 padding bias suppresses
but does not zero it. -/
theorem padding_weight_counterexample :
    c4_dispatcher.nonpadding 0 1 = 0 ∧
    0 < batched_head_weight c4_dispatcher c4_dispatcher false
      (fun _ _ => 0) (fun _ _ => 0) 1 0 0 1 := by
  refine ⟨by decide, ?_⟩
  unfold batched_head_weight
  exact softmax_weight_pos _ _ _ (by decide)

/-- Witness for the amended C4 at the concrete single-token dispatcher. -/
theorem padding_weight_bound_witness :
    c4_dispatcher.nonpadding 0 1 = 0 ∧
    batched_head_bias c4_dispatcher c4_dispatcher false 0 0 1 = -(10 ^ 9) ∧
    c4_dispatcher.dispatch (fun _ _ => 5) 0 1 0 = 0 :=
  ⟨by decide,
   (padding_weight_bound c4_dispatcher c4_dispatcher false
      (fun _ _ => 0) (fun _ _ => 0) (fun _ _ => 5) 1 0 0 1 0
      (by decide) (by decide) (by decide) (by decide)).1,
   (padding_weight_bound c4_dispatcher c4_dispatcher false
      (fun _ _ => 0) (fun _ _ => 0) (fun _ _ => 5) 1 0 0 1 0
      (by decide) (by decide) (by decide) (by decide)).2.2.1 0⟩
